import Mathlib

/-!
# strava-log-analyzer: the driver `main` of `boilerplate/template.go`

The committed source is a single `main` function.  It defines three command
line flags, selects one of two ingestion sources, and calls three report
functions.  The ingestion sources (`getDataFromFile`, `getDataFromServer`),
the report functions (`printLargestIndexes`, `printMostShards`,
`printLeastBalanced`) and the record type `IndexInfo` are used by `main` but
are not declared in the committed source.

Embedding:

* a run of `main` is a pure function of the flag values and of the two
  ingestion sources (taken as parameters); it yields the ordered list of
  externally visible events (calls, the `log.Fatalln` diagnostic) and the
  process exit status;
* `log.Fatalln` writes its operands to standard error and then calls
  `os.Exit(1)`; returning from `main` ends the process with status 0;
* Go scoping: `data, err := ...` inside the `if` and `else` blocks declares
  new block-local variables `data` and `err`; the `data` of line 15 is a
  different variable and is never assigned.
-/

namespace StravaLogAnalyzer

/-! ## Data model -/

/-- Modelled from the spec: the `ShardInfo` record of section 3 (the type is
not declared in the committed source). -/
structure ShardInfo where
  id : Int
  primary : Bool
  size_bytes : Nat
  doc_count : Nat
deriving DecidableEq, Repr

/-- Modelled from the spec: the `IndexInfo` record of section 3 (the type is
used on line 15 of `template.go` but not declared in the committed source). -/
structure IndexInfo where
  name : String
  primaries : Nat
  replicas : Nat
  total_shards : Nat
  size_bytes : Nat
  doc_count : Nat
  shards : List ShardInfo
deriving DecidableEq, Repr

/-! ## The driver -/

/-- Values of the three flags after `flag.Parse()`: `*endpoint`, `*debug`, `*days`. -/
structure Flags where
  endpoint : String
  debug : Bool
  days : Int
deriving DecidableEq, Repr

/-- Default value of a flag definition, by flag type. -/
inductive FlagValue where
  | string (s : String)
  | bool (b : Bool)
  | int (i : Int)
deriving DecidableEq, Repr

/-- One flag definition: `flag.String(name, value, usage)`, `flag.Bool(...)` or `flag.Int(...)`. -/
structure FlagDef where
  name : String
  value : FlagValue
  usage : String
deriving DecidableEq, Repr

/-- The flag definitions of `main`, lines 10 to 12, in source order. -/
def flagDefs : List FlagDef :=
  [ { name := "endpoint", value := FlagValue.string "", usage := "Logging endpoint" },
    { name := "debug", value := FlagValue.bool false, usage := "Debug flag used to run locally" },
    { name := "days", value := FlagValue.int 7, usage := "Number of days of data to parse" } ]

/-- The default of the string flag called `name`, if `defs` defines one. -/
def stringDefault (defs : List FlagDef) (name : String) : Option String :=
  match defs.find? (fun d => d.name = name) with
  | some { value := FlagValue.string s, .. } => some s
  | _ => none

/-- The default of the boolean flag called `name`, if `defs` defines one. -/
def boolDefault (defs : List FlagDef) (name : String) : Option Bool :=
  match defs.find? (fun d => d.name = name) with
  | some { value := FlagValue.bool b, .. } => some b
  | _ => none

/-- The default of the integer flag called `name`, if `defs` defines one. -/
def intDefault (defs : List FlagDef) (name : String) : Option Int :=
  match defs.find? (fun d => d.name = name) with
  | some { value := FlagValue.int i, .. } => some i
  | _ => none

/-- The flag values `main` sees when the command line gives no flags: `flag.Parse()`
leaves every flag at the default of its definition. -/
def flagsWithoutArguments : Option Flags :=
  match stringDefault flagDefs "endpoint", boolDefault flagDefs "debug", intDefault flagDefs "days" with
  | some e, some b, some d => some { endpoint := e, debug := b, days := d }
  | _, _, _ => none

/-- The two ingestion sources called by `main`.  Both are undefined in the committed
source and are parameters of the embedding.  A Go result `(data, err)` with `err != nil`
is `Except.error err.Error()`, one with `err == nil` is `Except.ok data`. -/
structure Sources where
  getDataFromFile : String → Except String (List IndexInfo)
  getDataFromServer : String → Int → Except String (List IndexInfo)

/-- An argument of a call made by `main`. -/
inductive Value where
  | str (s : String)
  | int (i : Int)
  | data (d : List IndexInfo)
deriving DecidableEq, Repr

/-- An externally visible step of a run of `main`. -/
inductive Event where
  | call (fn : String) (args : List Value)
  | fatalln (operands : List String)
deriving DecidableEq, Repr

/-- What a run of `main` does: its events in order, and the process exit status. -/
structure Outcome where
  trace : List Event
  exitCode : Nat
deriving DecidableEq, Repr

/-- Lines 28 to 30: the three report calls on the variable `data`. -/
def reportCalls (data : List IndexInfo) : List Event :=
  [ Event.call "printLargestIndexes" [Value.data data],
    Event.call "printMostShards" [Value.data data],
    Event.call "printLeastBalanced" [Value.data data] ]

/-- The function `main` of `template.go`, after `flag.Parse()`.

`data` is the variable of line 15 (`var data []IndexInfo`, initially `nil`).  The
results bound on lines 18 and 23 are new block-local variables, so the value passed
on lines 28 to 30 is still the `data` of line 15. -/
def main (src : Sources) (fl : Flags) : Outcome :=
  let data : List IndexInfo := []
  if fl.debug then
    match src.getDataFromFile "indexes.json" with
    | Except.error err =>
      { trace := [ Event.call "getDataFromFile" [Value.str "indexes.json"],
                   Event.fatalln ["Error reading data from file. Error: ", err] ],
        exitCode := 1 }
    | Except.ok _ =>
      { trace := Event.call "getDataFromFile" [Value.str "indexes.json"] :: reportCalls data,
        exitCode := 0 }
  else
    match src.getDataFromServer fl.endpoint fl.days with
    | Except.error err =>
      { trace := [ Event.call "getDataFromServer" [Value.str fl.endpoint, Value.int fl.days],
                   Event.fatalln ["Error reading data from api endpoint. Error: ", err] ],
        exitCode := 1 }
    | Except.ok _ =>
      { trace := Event.call "getDataFromServer" [Value.str fl.endpoint, Value.int fl.days]
                   :: reportCalls data,
        exitCode := 0 }

/-! ## Observations on a run -/

deriving instance DecidableEq for Except

/-- The result of the ingestion source that the flags select: the file source on
`indexes.json` under `--debug`, otherwise the HTTP source on `--endpoint` and `--days`. -/
def ingestionResult (src : Sources) (fl : Flags) : Except String (List IndexInfo) :=
  if fl.debug then src.getDataFromFile "indexes.json"
  else src.getDataFromServer fl.endpoint fl.days

/-- The call of the ingestion source that the flags select, as it appears in the trace
(line 18 or line 23). -/
def ingestionCall (fl : Flags) : Event :=
  if fl.debug then Event.call "getDataFromFile" [Value.str "indexes.json"]
  else Event.call "getDataFromServer" [Value.str fl.endpoint, Value.int fl.days]

/-- The first operand of the `log.Fatalln` of the selected branch (line 20 or line 25). -/
def diagnosticHead (fl : Flags) : String :=
  if fl.debug then "Error reading data from file. Error: "
  else "Error reading data from api endpoint. Error: "

/-- The argument lists of the calls to `fn` in a trace, in order. -/
def callsTo (fn : String) (tr : List Event) : List (List Value) :=
  tr.filterMap fun e =>
    match e with
    | Event.call g args => if g = fn then some args else none
    | Event.fatalln _ => none

/-- The names of the three report functions. -/
def reportNames : List String :=
  ["printLargestIndexes", "printMostShards", "printLeastBalanced"]

/-- The calls to report functions in a trace, in order. -/
def reportEvents (tr : List Event) : List Event :=
  tr.filter fun e =>
    match e with
    | Event.call g _ => decide (g ∈ reportNames)
    | Event.fatalln _ => false

/-- The diagnostics written by `log.Fatalln` in a trace, in order. -/
def diagnostics (tr : List Event) : List (List String) :=
  tr.filterMap fun e =>
    match e with
    | Event.call _ _ => none
    | Event.fatalln ops => some ops

/-- The datasets handed to the report function `fn` in a trace. -/
def datasetsPassedTo (fn : String) (tr : List Event) : List (List IndexInfo) :=
  (callsTo fn tr).filterMap fun args =>
    match args with
    | [Value.data d] => some d
    | _ => none

/-! ## The analyzers behind the reports

The report functions are not in the committed source.  The definitions below follow
sections 4.2, 4.4 and 4.5 of the specification; the floating point ranking of section
4.4 is a parameter.  Names are compared as their
character sequences, which is the order of `String` (`String.le_iff_toList_le`). -/

/-- Modelled from the spec: the error kind an analyzer raises when `K ≤ 0` (section 4.2,
section 7); the analyzers are missing from the committed source. -/
inductive AnalyzerError where
  | UsageError
deriving DecidableEq, Repr

/-- Modelled from the spec: the ranking of the missing largest-indexes analyzer,
section 4.2: descending `size_bytes`, ties broken by `name` ascending. -/
def largestBefore (a b : IndexInfo) : Prop :=
  b.size_bytes < a.size_bytes ∨
    (a.size_bytes = b.size_bytes ∧ a.name.toList ≤ b.name.toList)

instance largestBeforeDecidable : DecidableRel largestBefore := fun a b =>
  inferInstanceAs (Decidable (b.size_bytes < a.size_bytes ∨
    (a.size_bytes = b.size_bytes ∧ a.name.toList ≤ b.name.toList)))

/-- Modelled from the spec: the missing largest-indexes analyzer of section 4.2: the `K`
records with the greatest `size_bytes` in ranking order, all of `D` when `|D| < K`, and
`UsageError` when `K ≤ 0`. -/
def largest (D : List IndexInfo) (K : Int) : Except AnalyzerError (List IndexInfo) :=
  if K ≤ 0 then Except.error AnalyzerError.UsageError
  else Except.ok ((D.insertionSort largestBefore).take K.toNat)

/-- Modelled from the spec: the rows of the missing report `printLargestIndexes(data)`;
section 4.5 has the driver run the analyzers with `K = 10`, and the call on line 28
passes no `K`. -/
def printLargestIndexesRows (data : List IndexInfo) : Except AnalyzerError (List IndexInfo) :=
  largest data 10

/-- The strict form of the section 4.2 ranking, used to state that a list is in
ranking order without repetition. -/
def largestStrictlyBefore (a b : IndexInfo) : Prop :=
  b.size_bytes < a.size_bytes ∨
    (a.size_bytes = b.size_bytes ∧ a.name.toList < b.name.toList)

/-- The shard sizes `s₁ … sₙ` of an index. -/
def shardSizes (r : IndexInfo) : List Nat :=
  r.shards.map fun s => s.size_bytes

/-- The sum `Σ sᵢ` of the shard sizes of an index. -/
def shardTotal (r : IndexInfo) : Nat :=
  (shardSizes r).sum

/-- Modelled from the spec: which records qualify for the missing least-balanced analyzer,
section 4.4: at least two shards, and mean `μ = (Σ sᵢ)/n` not 0.  Shard sizes are
non-negative integers, so the mean is 0 exactly when the sizes sum to 0 ("all shards
empty"); this also holds for the mean computed in 64-bit floating point on the cast
sizes, where a sum with a non-zero term is at least 1.  Scenario S3 lets an
implementation either drop or keep indexes with `cv = 0`; section 4.4 and testable
property 6 keep them, and so does this definition. -/
def qualifies (r : IndexInfo) : Bool :=
  decide (2 ≤ r.shards.length) && decide (shardTotal r ≠ 0)

/-- Modelled from the spec: the missing least-balanced analyzer of section 4.4: the `K`
qualifying records in ranking order, `UsageError` when `K ≤ 0`.  The ranking comparison
of section 4.4 (`cv` descending, computed in 64-bit floating point, ties broken by
`total_shards` descending, then `name` ascending) is the parameter `before`: floating
point arithmetic is not modelled. -/
def leastBalanced (before : IndexInfo → IndexInfo → Bool) (D : List IndexInfo) (K : Int) :
    Except AnalyzerError (List IndexInfo) :=
  if K ≤ 0 then Except.error AnalyzerError.UsageError
  else Except.ok
    (((D.filter qualifies).insertionSort (fun a b => before a b = true)).take K.toNat)

/-! ## Sample inputs -/

/-- A record with the given name, size and shard sizes; `total_shards` is 1 when no shard
detail is given (scenario S1), else the number of shards. -/
def sampleIndex (name : String) (size : Nat) (sizes : List Nat) : IndexInfo :=
  { name := name, primaries := 1, replicas := 0,
    total_shards := if sizes = [] then 1 else sizes.length,
    size_bytes := size, doc_count := 0,
    shards := sizes.enum.map fun p =>
      { id := (p.1 : Int), primary := true, size_bytes := p.2, doc_count := 0 } }

/-- The dataset of scenario S1: `a` (100), `b` (300), `c` (200), no shard detail. -/
def datasetS1 : List IndexInfo :=
  [sampleIndex "a" 100 [], sampleIndex "b" 300 [], sampleIndex "c" 200 []]

/-- Sources whose file source returns `d` for every path and whose HTTP source returns
`d` for every endpoint and day window. -/
def sourcesReturning (d : List IndexInfo) : Sources :=
  { getDataFromFile := fun _ => Except.ok d,
    getDataFromServer := fun _ _ => Except.ok d }

/-- Sources that fail: the file source as for a missing `indexes.json`, the HTTP source
as for an unreachable endpoint. -/
def sourcesFailing : Sources :=
  { getDataFromFile := fun path => Except.error ("open " ++ path ++ ": no such file or directory"),
    getDataFromServer := fun _ _ => Except.error "connection refused" }


/-! ## Lemmas on the driver -/

theorem main_of_ok (src : Sources) (fl : Flags) (D : List IndexInfo)
    (h : ingestionResult src fl = Except.ok D) :
    main src fl = { trace := ingestionCall fl :: reportCalls [], exitCode := 0 } := by
  rcases fl with ⟨e, b, d⟩
  cases b
  · simp only [ingestionResult, Bool.false_eq_true, if_false] at h
    simp [main, ingestionCall, h]
  · simp only [ingestionResult, if_true] at h
    simp [main, ingestionCall, h]

theorem main_of_error (src : Sources) (fl : Flags) (err : String)
    (h : ingestionResult src fl = Except.error err) :
    main src fl =
      { trace := [ingestionCall fl, Event.fatalln [diagnosticHead fl, err]], exitCode := 1 } := by
  rcases fl with ⟨e, b, d⟩
  cases b
  · simp only [ingestionResult, Bool.false_eq_true, if_false] at h
    simp [main, ingestionCall, diagnosticHead, h]
  · simp only [ingestionResult, if_true] at h
    simp [main, ingestionCall, diagnosticHead, h]

theorem reportEvents_reportCalls (c : Event) (hc : reportEvents [c] = [])
    (d : List IndexInfo) : reportEvents (c :: reportCalls d) = reportCalls d := by
  have h1 : reportEvents (c :: reportCalls d) = reportEvents [c] ++ reportEvents (reportCalls d) := by
    simp [reportEvents, List.filter_cons]
    split <;> simp
  rw [h1, hc]
  simp [reportEvents, reportCalls, reportNames]

theorem reportEvents_ingestionCall (fl : Flags) : reportEvents [ingestionCall fl] = [] := by
  rcases fl with ⟨e, b, d⟩
  cases b <;> simp [reportEvents, ingestionCall, reportNames]

/-! ## The driver: source selection, ordering, error path -/

/-- C2: under `--debug` the file source is called exactly once, on `indexes.json`, the
HTTP source is never called and the run is the same for every `--endpoint` and `--days`;
without `--debug` the HTTP source is called exactly once, on the values of `--endpoint`
and `--days`, and the file source is never called. -/
theorem main_source_selection (src : Sources) (fl : Flags) (e : String) (d : Int) :
    callsTo "getDataFromFile" (main src fl).trace
        = (if fl.debug then [[Value.str "indexes.json"]] else []) ∧
    callsTo "getDataFromServer" (main src fl).trace
        = (if fl.debug then [] else [[Value.str fl.endpoint, Value.int fl.days]]) ∧
    main src { endpoint := e, debug := true, days := d }
        = main src { endpoint := fl.endpoint, debug := true, days := fl.days } := by
  refine ⟨?_, ?_, ?_⟩
  · unfold main
    split <;> split <;> simp_all [callsTo, reportCalls]
  · unfold main
    split <;> split <;> simp_all [callsTo, reportCalls]
  · simp [main]

/-- C5: when ingestion does not fail, the run is the ingestion call followed by exactly
one call of each report, in the order largest indexes, most shards, least balanced, all
three on the same dataset value. -/
theorem main_reports_in_order (src : Sources) (fl : Flags) (D : List IndexInfo)
    (h : ingestionResult src fl = Except.ok D) :
    ∃ d : List IndexInfo,
      (main src fl).trace =
        [ ingestionCall fl,
          Event.call "printLargestIndexes" [Value.data d],
          Event.call "printMostShards" [Value.data d],
          Event.call "printLeastBalanced" [Value.data d] ] ∧
      reportEvents (main src fl).trace =
        [ Event.call "printLargestIndexes" [Value.data d],
          Event.call "printMostShards" [Value.data d],
          Event.call "printLeastBalanced" [Value.data d] ] := by
  refine ⟨[], ?_, ?_⟩
  · rw [main_of_ok src fl D h]
    rfl
  · rw [main_of_ok src fl D h]
    exact reportEvents_reportCalls _ (reportEvents_ingestionCall fl) []

/-- Witness of C5: a debug run whose file source returns the dataset of scenario S1. -/
theorem main_reports_in_order_witness :
    ∃ d : List IndexInfo,
      (main (sourcesReturning datasetS1) { endpoint := "", debug := true, days := 7 }).trace =
        [ ingestionCall { endpoint := "", debug := true, days := 7 },
          Event.call "printLargestIndexes" [Value.data d],
          Event.call "printMostShards" [Value.data d],
          Event.call "printLeastBalanced" [Value.data d] ] ∧
      reportEvents
          (main (sourcesReturning datasetS1) { endpoint := "", debug := true, days := 7 }).trace =
        [ Event.call "printLargestIndexes" [Value.data d],
          Event.call "printMostShards" [Value.data d],
          Event.call "printLeastBalanced" [Value.data d] ] :=
  main_reports_in_order (sourcesReturning datasetS1)
    { endpoint := "", debug := true, days := 7 } datasetS1 (by decide)

/-- C6: when the selected ingestion source returns an error, the run ends with the
ingestion call followed by one `log.Fatalln` diagnostic carrying the error text, the exit
status is not 0, and no report function is called. -/
theorem main_fatal_on_ingestion_error (src : Sources) (fl : Flags) (err : String)
    (h : ingestionResult src fl = Except.error err) :
    (main src fl).trace = [ingestionCall fl, Event.fatalln [diagnosticHead fl, err]] ∧
    diagnostics (main src fl).trace = [[diagnosticHead fl, err]] ∧
    (main src fl).exitCode ≠ 0 ∧
    reportEvents (main src fl).trace = [] ∧
    callsTo "printLargestIndexes" (main src fl).trace = [] ∧
    callsTo "printMostShards" (main src fl).trace = [] ∧
    callsTo "printLeastBalanced" (main src fl).trace = [] := by
  rw [main_of_error src fl err h]
  rcases fl with ⟨e, b, d⟩
  cases b <;> simp [ingestionCall, diagnosticHead, diagnostics, reportEvents, reportNames, callsTo]

/-- Witness of C6: a debug run whose file source fails. -/
theorem main_fatal_on_ingestion_error_witness :
    (main sourcesFailing { endpoint := "", debug := true, days := 7 }).trace =
      [ ingestionCall { endpoint := "", debug := true, days := 7 },
        Event.fatalln [ diagnosticHead { endpoint := "", debug := true, days := 7 },
                        "open indexes.json: no such file or directory" ] ] ∧
    diagnostics (main sourcesFailing { endpoint := "", debug := true, days := 7 }).trace =
      [[ diagnosticHead { endpoint := "", debug := true, days := 7 },
         "open indexes.json: no such file or directory" ]] ∧
    (main sourcesFailing { endpoint := "", debug := true, days := 7 }).exitCode ≠ 0 ∧
    reportEvents (main sourcesFailing { endpoint := "", debug := true, days := 7 }).trace = [] ∧
    callsTo "printLargestIndexes"
      (main sourcesFailing { endpoint := "", debug := true, days := 7 }).trace = [] ∧
    callsTo "printMostShards"
      (main sourcesFailing { endpoint := "", debug := true, days := 7 }).trace = [] ∧
    callsTo "printLeastBalanced"
      (main sourcesFailing { endpoint := "", debug := true, days := 7 }).trace = [] :=
  main_fatal_on_ingestion_error sourcesFailing { endpoint := "", debug := true, days := 7 }
    "open indexes.json: no such file or directory" (by decide)

/-- C1, evaluated on the run with `--debug` whose file source returns the three records
of scenario S1: the ingestion call succeeds, and each of the three reports is called on
the empty dataset of line 15, not on the three records that ingestion returned. -/
theorem main_drops_ingested_dataset :
    ingestionResult (sourcesReturning datasetS1) { endpoint := "", debug := true, days := 7 }
      = Except.ok datasetS1 ∧
    datasetS1 ≠ [] ∧
    datasetsPassedTo "printLargestIndexes"
      (main (sourcesReturning datasetS1) { endpoint := "", debug := true, days := 7 }).trace
      = [[]] ∧
    datasetsPassedTo "printMostShards"
      (main (sourcesReturning datasetS1) { endpoint := "", debug := true, days := 7 }).trace
      = [[]] ∧
    datasetsPassedTo "printLeastBalanced"
      (main (sourcesReturning datasetS1) { endpoint := "", debug := true, days := 7 }).trace
      = [[]] ∧
    datasetsPassedTo "printLargestIndexes"
      (main (sourcesReturning datasetS1) { endpoint := "e", debug := false, days := 7 }).trace
      = [[]] := by
  decide

/-! ## The driver: exit status and flags -/

/-- C7, counterexample: with `--debug` set and `indexes.json` absent (the file source
returns an error) the exit status is 1, not 2. -/
theorem main_exit_status_missing_file :
    ingestionResult sourcesFailing { endpoint := "", debug := true, days := 7 }
      = Except.error "open indexes.json: no such file or directory" ∧
    (main sourcesFailing { endpoint := "", debug := true, days := 7 }).exitCode = 1 ∧
    (main sourcesFailing { endpoint := "", debug := true, days := 7 }).exitCode ≠ 2 := by
  decide

/-- C7, amended: whenever the selected ingestion source (file or HTTP) returns an error,
the process exit status is 1, the status of `log.Fatalln`. -/
theorem main_exit_status_one_on_ingestion_error (src : Sources) (fl : Flags) (err : String)
    (h : ingestionResult src fl = Except.error err) :
    (main src fl).exitCode = 1 := by
  rw [main_of_error src fl err h]

/-- Witness of C7, amended: a run without `--debug` whose HTTP source fails. -/
theorem main_exit_status_one_on_ingestion_error_witness :
    (main sourcesFailing { endpoint := "http://localhost:9200", debug := false, days := 7 }).exitCode
      = 1 :=
  main_exit_status_one_on_ingestion_error sourcesFailing
    { endpoint := "http://localhost:9200", debug := false, days := 7 } "connection refused"
    (by decide)

/-- C8, counterexample: without `--debug`, with an empty `--endpoint` and with
`--days` 0, a run whose HTTP source returns a dataset calls that source with `("", 0)`,
proceeds to the three reports and exits with status 0. -/
theorem main_no_flag_validation :
    callsTo "getDataFromServer"
      (main (sourcesReturning datasetS1) { endpoint := "", debug := false, days := 0 }).trace
      = [[Value.str "", Value.int 0]] ∧
    (reportEvents
      (main (sourcesReturning datasetS1) { endpoint := "", debug := false, days := 0 }).trace).length
      = 3 ∧
    (main (sourcesReturning datasetS1) { endpoint := "", debug := false, days := 0 }).exitCode = 0 ∧
    (main (sourcesReturning datasetS1) { endpoint := "", debug := false, days := 0 }).exitCode ≠ 1 := by
  decide

/-- C8, amended: `main` validates no flag.  For a flag valuation with `--debug` false and
an empty `--endpoint`, or with `--days` below 1, the selected source is still called with
the flag values as given; the run ends with exit status 1 exactly when that source returns
an error, and when the source returns a dataset the run proceeds to the three reports and
exits with status 0. -/
theorem main_exit_status_ignores_flag_validity (src : Sources) (fl : Flags)
    (_h : (fl.debug = false ∧ fl.endpoint = "") ∨ fl.days < 1) :
    (main src fl).trace.head? = some (ingestionCall fl) ∧
    ((main src fl).exitCode = 1 ↔ ∃ err, ingestionResult src fl = Except.error err) ∧
    ((∃ D, ingestionResult src fl = Except.ok D) →
      (main src fl).exitCode = 0 ∧ reportEvents (main src fl).trace = reportCalls []) := by
  cases hres : ingestionResult src fl with
  | error err =>
    rw [main_of_error src fl err hres]
    simp
  | ok D =>
    rw [main_of_ok src fl D hres]
    refine ⟨rfl, by simp, fun _ => ⟨rfl, ?_⟩⟩
    exact reportEvents_reportCalls _ (reportEvents_ingestionCall fl) []

/-- Witness of C8, amended: no `--debug`, empty `--endpoint`, `--days` 0, and an HTTP
source that returns the dataset of scenario S1. -/
theorem main_exit_status_ignores_flag_validity_witness :
    (main (sourcesReturning datasetS1) { endpoint := "", debug := false, days := 0 }).trace.head?
      = some (ingestionCall { endpoint := "", debug := false, days := 0 }) ∧
    ((main (sourcesReturning datasetS1) { endpoint := "", debug := false, days := 0 }).exitCode = 1
      ↔ ∃ err, ingestionResult (sourcesReturning datasetS1)
          { endpoint := "", debug := false, days := 0 } = Except.error err) ∧
    ((∃ D, ingestionResult (sourcesReturning datasetS1)
          { endpoint := "", debug := false, days := 0 } = Except.ok D) →
      (main (sourcesReturning datasetS1) { endpoint := "", debug := false, days := 0 }).exitCode = 0 ∧
      reportEvents
        (main (sourcesReturning datasetS1) { endpoint := "", debug := false, days := 0 }).trace
        = reportCalls []) :=
  main_exit_status_ignores_flag_validity (sourcesReturning datasetS1)
    { endpoint := "", debug := false, days := 0 } (Or.inl ⟨rfl, rfl⟩)

/-- C9, counterexample: `main` defines no flag named `top`, so there is no integer flag
`--top` with default 10. -/
theorem main_defines_no_top_flag :
    flagDefs.find? (fun d => d.name = "top") = none ∧
    ¬ (∃ d ∈ flagDefs, d.name = "top" ∧ d.value = FlagValue.int 10) := by
  decide

/-- C9, amended: `main` defines exactly the three flags `endpoint` (string, default
empty), `debug` (boolean, default false) and `days` (integer, default 7), and every call
of a report function in a run has the dataset as its only argument: no `K` is passed. -/
theorem main_flags_and_report_arguments (src : Sources) (fl : Flags) :
    flagDefs.map (fun d => (d.name, d.value))
      = [ ("endpoint", FlagValue.string ""), ("debug", FlagValue.bool false),
          ("days", FlagValue.int 7) ] ∧
    ∀ fn ∈ reportNames, ∀ args ∈ callsTo fn (main src fl).trace,
      ∃ d : List IndexInfo, args = [Value.data d] := by
  refine ⟨by decide, ?_⟩
  intro fn hfn args hargs
  refine ⟨[], ?_⟩
  cases hres : ingestionResult src fl with
  | error err =>
    rw [main_of_error src fl err hres] at hargs
    rcases fl with ⟨e, b, d⟩
    cases b <;> simp [reportNames] at hfn <;> rcases hfn with rfl | rfl | rfl <;>
      simp [callsTo, ingestionCall] at hargs
  | ok D =>
    rw [main_of_ok src fl D hres] at hargs
    rcases fl with ⟨e, b, d⟩
    cases b <;> simp [reportNames] at hfn <;> rcases hfn with rfl | rfl | rfl <;>
      simp [callsTo, ingestionCall, reportCalls] at hargs <;> exact hargs

/-- C10: with no flags on the command line `main` sees `endpoint = ""`, `debug = false`
and `days = 7`; the run then calls the HTTP source exactly once, with `("", 7)`, and never
calls the file source. -/
theorem main_flag_defaults (src : Sources) :
    flagsWithoutArguments = some { endpoint := "", debug := false, days := 7 } ∧
    ingestionCall { endpoint := "", debug := false, days := 7 }
      = Event.call "getDataFromServer" [Value.str "", Value.int 7] ∧
    (main src { endpoint := "", debug := false, days := 7 }).trace.head?
      = some (Event.call "getDataFromServer" [Value.str "", Value.int 7]) ∧
    callsTo "getDataFromServer" (main src { endpoint := "", debug := false, days := 7 }).trace
      = [[Value.str "", Value.int 7]] ∧
    callsTo "getDataFromFile" (main src { endpoint := "", debug := false, days := 7 }).trace
      = [] := by
  refine ⟨by decide, by decide, ?_, ?_, ?_⟩
  · unfold main
    simp only [Bool.false_eq_true, if_false]
    split <;> rfl
  · unfold main
    simp only [Bool.false_eq_true, if_false]
    split <;> simp [callsTo, reportCalls]
  · unfold main
    simp only [Bool.false_eq_true, if_false]
    split <;> simp [callsTo, reportCalls]

/-! ## The largest-indexes report -/

theorem largestBefore_total (a b : IndexInfo) : largestBefore a b ∨ largestBefore b a := by
  unfold largestBefore
  rcases lt_trichotomy a.size_bytes b.size_bytes with h | h | h
  · exact Or.inr (Or.inl h)
  · rcases le_total a.name.toList b.name.toList with hn | hn
    · exact Or.inl (Or.inr ⟨h, hn⟩)
    · exact Or.inr (Or.inr ⟨h.symm, hn⟩)
  · exact Or.inl (Or.inl h)

theorem largestBefore_trans (a b c : IndexInfo) (hab : largestBefore a b)
    (hbc : largestBefore b c) : largestBefore a c := by
  unfold largestBefore at *
  rcases hab with h1 | ⟨h1, n1⟩ <;> rcases hbc with h2 | ⟨h2, n2⟩
  · exact Or.inl (by omega)
  · exact Or.inl (by omega)
  · exact Or.inl (by omega)
  · exact Or.inr ⟨by omega, le_trans n1 n2⟩

theorem largestStrictlyBefore_asymm (a b : IndexInfo) (hab : largestStrictlyBefore a b)
    (hba : largestStrictlyBefore b a) : False := by
  unfold largestStrictlyBefore at *
  rcases hab with h1 | ⟨h1, n1⟩ <;> rcases hba with h2 | ⟨h2, n2⟩
  · omega
  · omega
  · omega
  · exact lt_asymm n1 n2

theorem largestStrictlyBefore_antisymm : IsAntisymm IndexInfo largestStrictlyBefore :=
  ⟨fun a b hab hba => (largestStrictlyBefore_asymm a b hab hba).elim⟩

theorem strictly_before_of_name_ne (a b : IndexInfo) (h : largestBefore a b)
    (hne : a.name ≠ b.name) : largestStrictlyBefore a b := by
  unfold largestBefore at h
  unfold largestStrictlyBefore
  rcases h with h | ⟨h, hn⟩
  · exact Or.inl h
  · refine Or.inr ⟨h, lt_of_le_of_ne hn ?_⟩
    intro hl
    exact hne (String.toList_inj.mp hl)

theorem insertionSort_strictly_sorted (D : List IndexInfo)
    (hD : (D.map (fun r => r.name)).Nodup) :
    (D.insertionSort largestBefore).Sorted largestStrictlyBefore := by
  haveI : IsTotal IndexInfo largestBefore := ⟨largestBefore_total⟩
  haveI : IsTrans IndexInfo largestBefore := ⟨largestBefore_trans⟩
  have hs : (D.insertionSort largestBefore).Pairwise largestBefore :=
    List.sorted_insertionSort largestBefore D
  have hp : (D.insertionSort largestBefore).Perm D := List.perm_insertionSort largestBefore D
  have hn : ((D.insertionSort largestBefore).map (fun r => r.name)).Nodup :=
    (hp.map _).nodup_iff.mpr hD
  have hn2 : (D.insertionSort largestBefore).Pairwise (fun a b => a.name ≠ b.name) := by
    rw [List.Nodup, List.pairwise_map] at hn
    exact hn
  exact (hs.and hn2).imp (fun {a b} h => strictly_before_of_name_ne a b h.1 h.2)

/-- C3, evaluated on the run with `--debug` whose file source returns the dataset of
scenario S1 (`a` 100, `b` 300, `c` 200): `printLargestIndexes` is called once, on the
empty dataset of line 15.  No record of the ingested dataset is in its argument, so a
report that lists only records of its argument lists nothing, and the rows of the
section 4.2 analyzer on that argument are empty, not `b` then `c`. -/
theorem driver_largest_report_gets_empty_dataset :
    ingestionResult (sourcesReturning datasetS1) { endpoint := "", debug := true, days := 7 }
      = Except.ok datasetS1 ∧
    callsTo "printLargestIndexes"
      (main (sourcesReturning datasetS1) { endpoint := "", debug := true, days := 7 }).trace
      = [[Value.data []]] ∧
    (∀ d ∈ datasetsPassedTo "printLargestIndexes"
        (main (sourcesReturning datasetS1) { endpoint := "", debug := true, days := 7 }).trace,
      ∀ r ∈ datasetS1, r ∉ d) ∧
    (∀ report : List IndexInfo → List IndexInfo, (∀ d r, r ∈ report d → r ∈ d) →
      (datasetsPassedTo "printLargestIndexes"
        (main (sourcesReturning datasetS1) { endpoint := "", debug := true, days := 7 }).trace).map
          report = [[]]) ∧
    (datasetsPassedTo "printLargestIndexes"
      (main (sourcesReturning datasetS1) { endpoint := "", debug := true, days := 7 }).trace).map
        printLargestIndexesRows
      = [Except.ok []] ∧
    printLargestIndexesRows datasetS1
      = Except.ok [sampleIndex "b" 300 [], sampleIndex "c" 200 [], sampleIndex "a" 100 []] := by
  have hd : datasetsPassedTo "printLargestIndexes"
      (main (sourcesReturning datasetS1) { endpoint := "", debug := true, days := 7 }).trace
      = [[]] := by decide
  refine ⟨by decide, by decide, ?_, ?_, by decide, by decide⟩
  · rw [hd]
    intro d hdm r _
    rw [List.mem_singleton] at hdm
    rw [hdm]
    exact List.not_mem_nil r
  · intro report hrep
    rw [hd]
    have hnil : report [] = [] :=
      List.eq_nil_iff_forall_not_mem.mpr fun r hr => List.not_mem_nil r (hrep [] r hr)
    simp [hnil]

/-- The section 4.2 analyzer on the dataset it is handed: for every dataset `D` with
unique names and every `K ≥ 1`, it returns rows; they are the first
`min(|D|, K)` records of the one arrangement of `D` that is in descending `size_bytes`
order with ties broken by `name` ascending; their number is `min(|D|, K)` and every
row is a record of `D`.  For `D = {a:100, b:300, c:200}` and `K = 2` the rows are `b`
then `c`. -/
theorem largest_lists_first_K (D : List IndexInfo) (K : Int) (hK : 1 ≤ K)
    (hD : (D.map (fun r => r.name)).Nodup) :
    (∃ rows S : List IndexInfo,
      largest D K = Except.ok rows ∧
      rows.length = min D.length K.toNat ∧
      (∀ r ∈ rows, r ∈ D) ∧
      S.Perm D ∧ S.Sorted largestStrictlyBefore ∧
      (∀ T : List IndexInfo, T.Perm D → T.Sorted largestStrictlyBefore → T = S) ∧
      rows = S.take (min D.length K.toNat)) ∧
    largest datasetS1 2 = Except.ok [sampleIndex "b" 300 [], sampleIndex "c" 200 []] := by
  refine ⟨⟨(D.insertionSort largestBefore).take K.toNat, D.insertionSort largestBefore,
    ?_, ?_, ?_, List.perm_insertionSort _ _, insertionSort_strictly_sorted D hD, ?_, ?_⟩,
    by decide⟩
  · unfold largest
    rw [if_neg (by omega)]
  · rw [List.length_take, List.length_insertionSort, min_comm]
  · intro r hr
    exact (List.mem_insertionSort largestBefore).mp (List.mem_of_mem_take hr)
  · intro T hT hTs
    haveI : IsAntisymm IndexInfo largestStrictlyBefore := largestStrictlyBefore_antisymm
    exact List.eq_of_perm_of_sorted (hT.trans (List.perm_insertionSort _ _).symm) hTs
      (insertionSort_strictly_sorted D hD)
  · apply List.take_eq_take.mpr
    rw [List.length_insertionSort]
    omega

/-! ## The least-balanced report -/

theorem qualifies_eq_false_iff (r : IndexInfo) :
    qualifies r = false ↔
      (r.shards = [] ∨ r.shards.length < 2 ∨ shardTotal r = 0) := by
  have hnil : r.shards = [] → r.shards.length < 2 := by
    intro h
    simp [h]
  simp only [qualifies, Bool.and_eq_false_iff, decide_eq_false_iff_not, not_le, not_not]
  constructor
  · rintro (h | h)
    · exact Or.inr (Or.inl h)
    · exact Or.inr (Or.inr h)
  · rintro (h | h | h)
    · exact Or.inl (hnil h)
    · exact Or.inl h
    · exact Or.inr h

/-- C4: for every dataset `D`, every `K ≥ |D|` and every record of `D`, the
least-balanced analyzer returns a report, whatever comparison it ranks with, and the
record is absent from the report if and only if its shards sequence is empty, or has
fewer than two elements, or its shard sizes sum to 0; every other record of `D` is in
the report. -/
theorem leastBalanced_absent_iff (before : IndexInfo → IndexInfo → Bool)
    (D : List IndexInfo) (K : Int) (r : IndexInfo)
    (hK : (D.length : Int) ≤ K) (hr : r ∈ D) :
    ∃ rows : List IndexInfo,
      leastBalanced before D K = Except.ok rows ∧
      (r ∉ rows ↔ (r.shards = [] ∨ r.shards.length < 2 ∨ shardTotal r = 0)) ∧
      (∀ x ∈ rows, x ∈ D) := by
  have hpos : 0 < D.length := List.length_pos_of_mem hr
  refine ⟨(D.filter qualifies).insertionSort (fun a b => before a b = true), ?_, ?_, ?_⟩
  · unfold leastBalanced
    rw [if_neg (by omega)]
    congr 1
    apply List.take_of_length_le
    rw [List.length_insertionSort]
    have := List.length_filter_le qualifies D
    omega
  · rw [← qualifies_eq_false_iff, List.mem_insertionSort, List.mem_filter]
    simp [hr]
  · intro x hx
    rw [List.mem_insertionSort, List.mem_filter] at hx
    exact hx.1

/-- Witness of C4: the dataset with `y` (shard sizes `[1, 1, 1, 97]`), `x` (shard sizes
`[10, 10, 10, 10]`) and `w` (one shard of size 5), `K = 3`, the record `w`, ranking by
`total_shards` descending. -/
theorem leastBalanced_absent_iff_witness :
    ∃ rows : List IndexInfo,
      leastBalanced (fun a b => decide (b.total_shards ≤ a.total_shards))
        [sampleIndex "y" 100 [1, 1, 1, 97], sampleIndex "x" 40 [10, 10, 10, 10],
          sampleIndex "w" 5 [5]] 3
        = Except.ok rows ∧
      (sampleIndex "w" 5 [5] ∉ rows ↔
        ((sampleIndex "w" 5 [5]).shards = [] ∨
          (sampleIndex "w" 5 [5]).shards.length < 2 ∨
          shardTotal (sampleIndex "w" 5 [5]) = 0)) ∧
      (∀ x ∈ rows, x ∈ [sampleIndex "y" 100 [1, 1, 1, 97], sampleIndex "x" 40 [10, 10, 10, 10],
          sampleIndex "w" 5 [5]]) :=
  leastBalanced_absent_iff (fun a b => decide (b.total_shards ≤ a.total_shards))
    [sampleIndex "y" 100 [1, 1, 1, 97], sampleIndex "x" 40 [10, 10, 10, 10],
      sampleIndex "w" 5 [5]] 3
    (sampleIndex "w" 5 [5]) (by decide) (by decide)

end StravaLogAnalyzer
